import Mathlib

/-!
Verification development for the NL2SQL backend pipeline.

Strings from the Python source are modelled as `List Char` (`Str`), so that
Python's `str` operations (strip, upper/lower, startswith, substring test,
slicing) become ordinary list functions.  Each definition mirrors one
function of `src/backend`, keeping its name where Lean allows it.
External collaborators (database connector, model client, vector store)
are passed in as explicit parameters, exactly at the points where the
source calls out to them.
-/

namespace NL2SQL

/-- Characters model of a Python `str`. -/
abbrev Str := List Char

/-- Whitespace recognised by Python's `str.strip()`. -/
def isPySpace (c : Char) : Bool :=
  c == ' ' || c == '\t' || c == '\n' || c == '\r' || c == '\x0b' || c == '\x0c'

/-- Python `s.strip()`: drop whitespace from both ends. -/
def strip (s : Str) : Str :=
  ((s.dropWhile isPySpace).reverse.dropWhile isPySpace).reverse

/-- Python `s.upper()` (ASCII-faithful). -/
def upper (s : Str) : Str := s.map Char.toUpper

/-- Python `s.lower()` (ASCII-faithful). -/
def lower (s : Str) : Str := s.map Char.toLower

/-- Python `needle in hay` substring test. -/
def containsSub (hay needle : Str) : Bool :=
  match hay with
  | [] => needle.isEmpty
  | _ :: t => needle.isPrefixOf hay || containsSub t needle

/-- Python `l[:-n]` for lists: drop the last `n` elements. -/
def dropRightL (n : Nat) (l : Str) : Str := l.take (l.length - n)

/-- Python `sep.join(parts)`. -/
def joinWith (sep : Str) (parts : List Str) : Str := List.intercalate sep parts

/-- SQLGenerator.FORBIDDEN_KEYWORDS from `sql_generator.py`. -/
def FORBIDDEN_KEYWORDS : List Str :=
  ["DROP".data, "DELETE".data, "TRUNCATE".data, "ALTER".data, "UPDATE".data,
   "INSERT".data, "GRANT".data, "REVOKE".data, "CREATE".data]

/-- SQLGenerator.SYSTEM_TABLE_PATTERNS from `sql_generator.py`.  Each pattern
is a regex literal made of lowercase letters and underscores, so the
case-insensitive `re.search` is a substring test on the lowercased query. -/
def SYSTEM_TABLE_PATTERNS : List Str :=
  ["information_schema".data, "pg_catalog".data, "pg_toast".data]

/-- Result dictionary of `SQLGenerator.validate_sql`. -/
structure ValidationResult where
  is_safe : Bool
  is_valid : Bool
  issues : List Str
  warnings : List Str
  risk_score : Nat
deriving DecidableEq, Repr

/-- SQLGenerator.validate_sql.  The `tables` parameter models the
`self.db.get_tables()` collaborator call: `none` models the call raising
(the `except` branch), `some ts` a successful table list.  The keyword
`for`-loops of the source append one issue per firing rule in list order,
which is rendered as `filter`/`map`. -/
def validate_sql (tables : Option (List Str)) (sql_query : Str) : ValidationResult :=
  let upper_sql := upper (strip sql_query)
  let startsSelect := ("SELECT".data).isPrefixOf upper_sql
  let firedKeywords := FORBIDDEN_KEYWORDS.filter (fun k => containsSub upper_sql k)
  let multi := (strip sql_query).dropLast.contains ';'
  let firedPatterns := SYSTEM_TABLE_PATTERNS.filter (fun p => containsSub (lower sql_query) p)
  let issues :=
    (if startsSelect then [] else ["Only SELECT queries are allowed".data]) ++
    firedKeywords.map (fun k => "Forbidden keyword detected: ".data ++ k) ++
    (if multi then ["Multiple SQL statements detected".data] else []) ++
    firedPatterns.map (fun _ => "System table access detected".data)
  let warnings :=
    match tables with
    | none => ["Table validation skipped".data]
    | some ts =>
        if ts.any (fun t => containsSub (lower sql_query) (lower t)) then []
        else ["No known table detected in query".data]
  { is_safe := issues.length == 0
    is_valid := true
    issues := issues
    warnings := warnings
    risk_score :=
      (if startsSelect then 0 else 50) + 40 * firedKeywords.length +
      (if multi then 30 else 0) + 40 * firedPatterns.length }

/-- Result dictionary shape shared by the mock and LLM generation backends
(`{"success": ..., "sql": ..., "error": ...}`; absent keys are `none`). -/
structure GenAttempt where
  success : Bool
  sql : Option Str
  error : Option Str
deriving DecidableEq, Repr

/-- Rule table of `SQLGenerator._mock_generate_sql`. -/
def mock_patterns : List (List Str × Str) :=
  [(["customer".data, "how many".data], "SELECT COUNT(*) FROM customers;".data),
   (["customer".data], "SELECT * FROM customers;".data),
   (["order".data, "how many".data], "SELECT COUNT(*) FROM orders;".data),
   (["average".data], "SELECT AVG(price) FROM products;".data),
   (["avg".data], "SELECT AVG(price) FROM products;".data),
   (["product".data], "SELECT * FROM products;".data)]

/-- SQLGenerator._mock_generate_sql: lower-case the question, return the
template of the first rule all of whose keywords occur, else `SELECT 1;`. -/
def _mock_generate_sql (question : Str) : GenAttempt :=
  let q := lower question
  match mock_patterns.find? (fun pr => pr.1.all (fun w => containsSub q w)) with
  | some pr => { success := true, sql := some pr.2, error := none }
  | none => { success := true, sql := some "SELECT 1;".data, error := none }

/-- SQLGenerator._llm_generate_sql.  `openai` models `self.openai`
(`none` = missing client); `collab` models the `self.openai.generate_sql`
collaborator call, `Except.error e` standing for a raised exception with
message `e` (caught by the source's `except` clause). -/
def _llm_generate_sql (openai : Option Unit) (collab : Except Str GenAttempt) :
    GenAttempt :=
  match openai with
  | none => { success := false, sql := none, error := some "LLM client not initialized".data }
  | some _ =>
      match collab with
      | Except.ok r => r
      | Except.error e => { success := false, sql := none, error := some e }

/-- Result dictionary of the orchestrator `SQLGenerator.generate_sql`. -/
structure GenerateSqlResult where
  success : Bool
  sql : Option Str
  error : Option Str
  validation : Option ValidationResult
deriving DecidableEq, Repr

/-- SQLGenerator.generate_sql.  `schema_fetch` models the
`self.db.get_schema_for_prompt()` call (`Except.error e` = raised
exception); `tables` is the collaborator input of `validate_sql`;
`use_mock`, `openai`, `collab` select and feed the backend exactly as the
source does. -/
def generate_sql (use_mock : Bool) (openai : Option Unit)
    (collab : Except Str GenAttempt) (schema_fetch : Except Str Unit)
    (tables : Option (List Str)) (question : Str) : GenerateSqlResult :=
  match schema_fetch with
  | Except.error e =>
      { success := false, sql := none,
        error := some ("Schema error: ".data ++ e), validation := none }
  | Except.ok _ =>
      let ai_response :=
        if use_mock then _mock_generate_sql question
        else _llm_generate_sql openai collab
      if ai_response.success = false then
        { success := false, sql := none,
          error := some (ai_response.error.getD "Unknown LLM error".data),
          validation := none }
      else
        match ai_response.sql with
        | none =>
            { success := false, sql := none,
              error := some "No SQL generated".data, validation := none }
        | some s =>
            if s.isEmpty then
              { success := false, sql := none,
                error := some "No SQL generated".data, validation := none }
            else
              let validation := validate_sql tables s
              { success := validation.is_safe, sql := some s, error := none,
                validation := some validation }

/-- Leading-fence removal step of `OpenAIClient._extract_sql`
(`openai_client.py` lines 216-219): drop a leading ```` ```sql ```` fence
(6 characters), else a leading ```` ``` ```` fence (3 characters). -/
def dropLeadingFence (content : Str) : Str :=
  if ("```sql".data).isPrefixOf content then content.drop 6
  else if ("```".data).isPrefixOf content then content.drop 3
  else content

/-- Trailing-fence removal step of `OpenAIClient._extract_sql`
(`openai_client.py` lines 221-222): drop a trailing ```` ``` ```` fence. -/
def dropTrailingFence (content : Str) : Str :=
  if ("```".data).isSuffixOf content then dropRightL 3 content
  else content

/-- OpenAIClient._extract_sql from `openai_client.py`: strip whitespace,
drop a leading ```` ```sql ```` or ```` ``` ```` fence, drop a trailing
```` ``` ```` fence, strip again.  (No truncation at `;` happens here.) -/
def _extract_sql (response : Str) : Str :=
  if response.isEmpty then []
  else strip (dropTrailingFence (dropLeadingFence (strip response)))

/-- Truncation at the first `;` (inclusive), as the spec words describe it. -/
def truncAtSemicolon : Str → Str
  | [] => []
  | c :: t => if c = ';' then [c] else c :: truncAtSemicolon t

/-- Modelled from the spec: the spec's description of the SQL-extraction
step ("strip a leading/trailing triple-backtick fence ... then truncate at
the first `;` (inclusive) if present, else use the trimmed whole text"),
written for comparison with `_extract_sql`, which the source actually runs. -/
def extractSqlSpec (response : Str) : Str :=
  if response.isEmpty then []
  else
    let content := dropTrailingFence (dropLeadingFence (strip response))
    if content.contains ';' then truncAtSemicolon content
    else strip content

/-- Column dictionary produced by `DatabaseConnector.get_table_schema`. -/
structure ColumnD where
  name : Str
  type : Str
  nullable : Bool
deriving DecidableEq, Repr

/-- Per-table schema dictionary (its `columns` entry, which is all the RAG
engine reads). -/
structure TableSchema where
  columns : List ColumnD
deriving DecidableEq, Repr

/-- Full schema mapping of `DatabaseConnector.get_full_schema`: an insertion
ordered mapping table name → table schema, modelled as an association list. -/
abbrev SchemaMap := List (Str × TableSchema)

/-- Key order used by Python's `sorted(schema.items())`: tuples are compared
on their first component, and since keys are unique the second components
are never compared. -/
def itemLe (a b : Str × TableSchema) : Prop := a.1 ≤ b.1

instance : DecidableRel itemLe := fun a b => inferInstanceAs (Decidable (a.1 ≤ b.1))

instance : IsTotal (Str × TableSchema) itemLe := ⟨fun a b => le_total a.1 b.1⟩

instance : IsTrans (Str × TableSchema) itemLe := ⟨fun _ _ _ h h' => le_trans h h'⟩

/-- Python `sorted(schema.items())`. -/
def sortedItems (schema : SchemaMap) : SchemaMap := List.insertionSort itemLe schema

/-- RAGEngine._compute_schema_hash: `md5(str(sorted(schema.items())))[:16]`.
The digest function (serialisation + md5 + truncation) is the abstract
parameter `H`; the source-visible structure is that `H` is applied to the
key-sorted item list. -/
def _compute_schema_hash (H : SchemaMap → Str) (schema : SchemaMap) : Str :=
  H (sortedItems schema)

/-- RAGEngine._create_table_document. -/
def _create_table_document (table_name : Str) (schema : TableSchema) : Str :=
  "Table \x27".data ++ table_name ++ "\x27 contains ".data ++
  (toString schema.columns.length).data ++ " columns: ".data ++
  joinWith ", ".data (schema.columns.map (fun c => c.name ++ " (".data ++ c.type ++ ")".data)) ++
  ". This table can be queried using SELECT statements.".data

/-- Semantic hints of `RAGEngine._create_column_document`, in source order. -/
def columnHints (name_lower : Str) : List Str :=
  (if containsSub name_lower "id".data then ["identifier/primary key".data] else []) ++
  (if containsSub name_lower "name".data then ["text/name field".data] else []) ++
  (if containsSub name_lower "date".data || containsSub name_lower "time".data then
    ["datetime field".data] else []) ++
  (if containsSub name_lower "price".data || containsSub name_lower "amount".data ||
      containsSub name_lower "cost".data then ["monetary value".data] else []) ++
  (if containsSub name_lower "count".data || containsSub name_lower "quantity".data then
    ["numeric count".data] else []) ++
  (if containsSub name_lower "email".data then ["email address".data] else []) ++
  (if containsSub name_lower "status".data || containsSub name_lower "state".data then
    ["status/state field".data] else []) ++
  (if containsSub name_lower "is_".data || containsSub name_lower "has_".data then
    ["boolean flag".data] else [])

/-- RAGEngine._create_column_document. -/
def _create_column_document (table_name : Str) (column : ColumnD) : Str :=
  let hints := columnHints (lower column.name)
  let hint_str :=
    if hints.isEmpty then []
    else " Used for: ".data ++ joinWith ", ".data hints ++ ".".data
  "Column \x27".data ++ column.name ++ "\x27 in table \x27".data ++ table_name ++
  "\x27 has type ".data ++ column.type ++ ".".data ++ hint_str

/-- Vector collection contents: the (id, document) pairs stored so far.
`add` appends a batch; `get(ids=[i])` reports whether `i` is present.
Metadata dictionaries are carried by the store but never read back by
`index_schema`, so they are not part of this state. -/
abbrev Collection := List (Str × Str)

/-- Identifier/document pairs that `index_schema` builds for one table:
a table document followed by one document per column. -/
def tableDocs (table_name : Str) (schema : TableSchema) : List (Str × Str) :=
  ("table_".data ++ table_name, _create_table_document table_name schema) ::
  schema.columns.map (fun c =>
    ("column_".data ++ table_name ++ "_".data ++ c.name,
     _create_column_document table_name c))

/-- Sample-data documents of `RAGEngine._create_sample_data_documents`:
`samples t` models `self.db.get_sample_data(t, 2)`, with `none` standing
for an exception or an empty (falsy) sample, both of which skip the table. -/
def sampleDocs (samples : Str → Option Str) (schema : SchemaMap) : List (Str × Str) :=
  schema.filterMap (fun pr =>
    match samples pr.1 with
    | some s => some ("sample_".data ++ pr.1, "Sample data from ".data ++ pr.1 ++ ": ".data ++ s)
    | none => none)

/-- Result dictionary of `RAGEngine.index_schema`. -/
structure IndexOutcome where
  success : Bool
  tables_indexed : Nat
  documents_added : Nat
  error : Option Str
  message : Option Str
deriving DecidableEq, Repr

/-- Identifier of the hash-marker document, `f"schema_hash_{schema_hash}"`. -/
def hashMarkerId (H : SchemaMap → Str) (schema : SchemaMap) : Str :=
  "schema_hash_".data ++ _compute_schema_hash H schema

/-- Full document batch `index_schema` builds: per-table documents (table
document followed by its column documents), then the hash-marker document,
then the sample-data documents — in the source's append order. -/
def allSchemaDocs (H : SchemaMap → Str) (schema : SchemaMap)
    (samples : Str → Option Str) : Collection :=
  (schema.map (fun pr => tableDocs pr.1 pr.2)).flatten ++
  [(hashMarkerId H schema, "Schema hash: ".data ++ _compute_schema_hash H schema)] ++
  sampleDocs samples schema

/-- RAGEngine.index_schema over an initialised engine: returns the result
dictionary, the new collection contents, and how many batch `add` calls
were made (0 or 1).  `H` is the digest of `_compute_schema_hash`; `schema`
models `self.db.get_full_schema()`; `samples` the sample-data collaborator. -/
def index_schema (H : SchemaMap → Str) (schema : SchemaMap)
    (samples : Str → Option Str) (force_reindex : Bool) (col : Collection) :
    IndexOutcome × Collection × Nat :=
  if force_reindex = false ∧ col.any (fun p => p.1 = hashMarkerId H schema) then
    ({ success := true, tables_indexed := 0, documents_added := 0,
       error := none, message := some "Schema already indexed".data }, col, 0)
  else
    ({ success := true, tables_indexed := schema.length,
       documents_added := (allSchemaDocs H schema samples).length,
       error := none, message := none },
     (if force_reindex then ([] : Collection) else col) ++ allSchemaDocs H schema samples,
     1)

/-- One match returned by the vector store's nearest-neighbour query:
document text, metadata fields, and distance (floats modelled as ℚ). -/
structure QueryMatch where
  doc : Str
  mtype : Str
  table_name : Str
  column_name : Str
  column_type : Str
  distance : ℚ
deriving DecidableEq, Repr

/-- Column entry of `RAGEngine.retrieve_context`'s result. -/
structure ColEntry where
  table : Str
  column : Str
  ctype : Str
  relevance : ℚ
deriving DecidableEq, Repr

/-- Result dictionary of `RAGEngine.retrieve_context`. -/
structure RetrievalResult where
  success : Bool
  context : Str
  tables : List Str
  columns : List ColEntry
  error : Option Str
deriving DecidableEq, Repr

/-- Sequence of `tables.add(...)` calls performed by the match loop of
`retrieve_context` (one add per table- or column-typed match, duplicates
included). -/
def tableAdds (ms : List QueryMatch) : List Str :=
  ms.filterMap (fun m =>
    if m.mtype = "table".data || m.mtype = "column".data then some m.table_name
    else none)

/-- Document texts collected into `context_parts` by the match loop. -/
def contextParts (ms : List QueryMatch) : List Str :=
  ms.filterMap (fun m =>
    if m.mtype = "table".data || m.mtype = "column".data then some m.doc
    else none)

/-- Column entries collected by the match loop (`relevance = 1 - distance`). -/
def columnEntries (ms : List QueryMatch) : List ColEntry :=
  ms.filterMap (fun m =>
    if m.mtype = "column".data then
      some { table := m.table_name, column := m.column_name,
             ctype := m.column_type, relevance := 1 - m.distance }
    else none)

/-- First-occurrence deduplication: the insertion order of a Python `set`'s
distinct elements, used to state the spec's "order first encountered". -/
def firstDedup (l : List Str) : List Str :=
  l.foldl (fun acc a => if a ∈ acc then acc else acc ++ [a]) []

/-- RAGEngine._build_context_string. -/
def _build_context_string (tables : List Str) (context_parts : List Str) : Str :=
  joinWith "\n".data
    (["Retrieved Context:".data,
      List.replicate 40 '-',
      "Relevant tables: ".data ++ joinWith ", ".data tables,
      [],
      "Details:".data] ++
     (context_parts.take 10).map (fun p => "- ".data ++ p))

/-- RAGEngine.retrieve_context over an initialised engine.  `listOfSet`
models Python's `list(<set>)` applied to the set built by the sequence of
`add` calls: it is an arbitrary enumeration, constrained in theorems to be
a permutation of the distinct elements.  `queryOutcome` models the vector
store round trip: `Except.error e` covers an exception as well as the
"No results found" early return, `Except.ok ms` a match list. -/
def retrieve_context (listOfSet : List Str → List Str)
    (queryOutcome : Except Str (List QueryMatch)) : RetrievalResult :=
  match queryOutcome with
  | Except.error e =>
      { success := false, context := [], tables := [], columns := [], error := some e }
  | Except.ok ms =>
      let tables := listOfSet (tableAdds ms)
      { success := true,
        context := _build_context_string tables (contextParts ms),
        tables := tables,
        columns := columnEntries ms,
        error := none }

/-- Per-table column listing built by `RAGEngine.get_relevant_schema` once
retrieval produced a non-empty table list. -/
def relevantSchemaListing (table_schema : Str → TableSchema)
    (relevant_tables : List Str) : Str :=
  joinWith "\n".data
    (["Relevant Database Schema:".data, List.replicate 40 '='] ++
     (relevant_tables.map (fun t =>
       ("\nTable: ".data ++ t) ::
       (table_schema t).columns.map (fun c =>
         "  - ".data ++ c.name ++ " (".data ++ c.type ++ ")".data))).flatten)

/-- RAGEngine.get_relevant_schema.  `schema_for_prompt` models
`self.db.get_schema_for_prompt()`, `table_schema` models
`self.db.get_table_schema`. -/
def get_relevant_schema (listOfSet : List Str → List Str)
    (queryOutcome : Except Str (List QueryMatch)) (schema_for_prompt : Str)
    (table_schema : Str → TableSchema) (max_tables : Nat) : Str :=
  let context_result := retrieve_context listOfSet queryOutcome
  if context_result.success = false then schema_for_prompt
  else
    let relevant_tables := context_result.tables.take max_tables
    if relevant_tables.isEmpty then schema_for_prompt
    else relevantSchemaListing table_schema relevant_tables

/-- Modelled from the spec: `get_relevant_schema` as the claim describes
it, with the matched tables listed "in the order first encountered among
the retrieval matches" (first-occurrence order instead of an arbitrary set
enumeration).  Written for comparison with `get_relevant_schema`. -/
def get_relevant_schema_claimed (queryOutcome : Except Str (List QueryMatch))
    (schema_for_prompt : Str) (table_schema : Str → TableSchema)
    (max_tables : Nat) : Str :=
  match queryOutcome with
  | Except.error _ => schema_for_prompt
  | Except.ok ms =>
      let relevant_tables := (firstDedup (tableAdds ms)).take max_tables
      if relevant_tables.isEmpty then schema_for_prompt
      else relevantSchemaListing table_schema relevant_tables

/-- Error kinds of the OpenAI API call in `OpenAIClient.chat_completion`. -/
inductive ApiFailure where
  | rateLimit : ApiFailure
  | apiError : Str → ApiFailure
  | otherError : Str → ApiFailure
deriving DecidableEq, Repr

/-- Error message each `except` clause of `chat_completion` stores. -/
def apiFailureMessage : ApiFailure → Str
  | ApiFailure.rateLimit => "Rate limit exceeded. Please try again later.".data
  | ApiFailure.apiError m => "API error: ".data ++ m
  | ApiFailure.otherError m => "Unexpected error: ".data ++ m

/-- Result dictionary of `OpenAIClient.chat_completion` (the `usage`
token-count triple is carried opaquely). -/
structure ChatResult where
  success : Bool
  content : Option Str
  usage : Option (Nat × Nat × Nat)
  error : Option Str
deriving DecidableEq, Repr

/-- OpenAIClient.chat_completion.  `is_initialized` and `init_ok` model the
`self.is_initialized` check and the `self.initialize()` attempt; `api`
models the completion round trip (`Except.error` = raised exception,
`Except.ok` = response content plus usage counts). -/
def chat_completion (is_initialized : Bool) (init_ok : Bool)
    (api : Except ApiFailure (Str × Nat × Nat × Nat)) : ChatResult :=
  if is_initialized = false ∧ init_ok = false then
    { success := false, content := none, usage := none,
      error := some "OpenAI client not initialized".data }
  else
    match api with
    | Except.ok r =>
        { success := true, content := some r.1, usage := some r.2, error := none }
    | Except.error e =>
        { success := false, content := none, usage := none,
          error := some (apiFailureMessage e) }

/-- Risk increment attached to one issue string by `validate_sql`'s rules:
forbidden-keyword issues carry 40, the SELECT-only issue 50, the
multiple-statements issue 30, the system-table issue 40. -/
def issueWeight (s : Str) : Nat :=
  if ("Forbidden keyword detected: ".data).isPrefixOf s then 40
  else if s = "Only SELECT queries are allowed".data then 50
  else if s = "Multiple SQL statements detected".data then 30
  else if s = "System table access detected".data then 40
  else 0

/-- Two table-typed matches on distinct tables, used to exercise the
table ordering of `get_relevant_schema`. -/
def twoTableMatches : List QueryMatch :=
  [{ doc := "doc about customers".data, mtype := "table".data,
     table_name := "customers".data, column_name := [], column_type := [],
     distance := 0 },
   { doc := "doc about orders".data, mtype := "table".data,
     table_name := "orders".data, column_name := [], column_type := [],
     distance := 0 }]

instance : Inhabited ColumnD := ⟨⟨[], [], true⟩⟩

instance : Inhabited TableSchema := ⟨⟨[]⟩⟩

/-- Constant digest function, used to instantiate `index_schema` concretely. -/
def hConst : SchemaMap → Str := fun _ => "h".data

/-- One-table schema used to instantiate `index_schema` concretely. -/
def sampleSchema : SchemaMap :=
  [("customers".data, ⟨[⟨"id".data, "INTEGER".data, true⟩]⟩)]

section Theorems

/-- Helper: `List.find?` returns the element at position `i` when it
satisfies the predicate and every earlier element does not. -/
theorem find?_eq_of_first {α : Type} (p : α → Bool) :
    ∀ (l : List α) (i : Nat) (a : α), l.get? i = some a → p a = true →
    (∀ j, j < i → ∀ b, l.get? j = some b → p b = false) →
    l.find? p = some a
  | [], i, a, h, _, _ => by simp at h
  | c :: t, 0, a, h, hp, _ => by
      simp only [List.get?] at h
      cases h
      simp [List.find?_cons_of_pos _ hp]
  | c :: t, n + 1, a, h, hp, hmin => by
      have hc : p c = false := hmin 0 (Nat.succ_pos n) c rfl
      rw [List.find?_cons_of_neg _ (by simp [hc])]
      exact find?_eq_of_first p t n a h hp
        (fun j hj b hb => hmin (j + 1) (Nat.succ_lt_succ hj) b hb)

/-- C9: the model-backed generation path returns success:false with error
"LLM client not initialized" when the model client is missing, returns
success:false with the exception's message for any exception raised by the
model collaborator, and passes a successful collaborator result through;
likewise `chat_completion` reports "OpenAI client not initialized" when the
client is uninitialized and initialization fails, and maps each API
exception to a success:false result.  Both are total functions of the
collaborator outcome, so no exception escapes the component. -/
theorem llm_error_handling :
    (∀ collab : Except Str GenAttempt,
      _llm_generate_sql none collab =
        { success := false, sql := none,
          error := some "LLM client not initialized".data }) ∧
    (∀ e : Str, _llm_generate_sql (some ()) (Except.error e) =
        { success := false, sql := none, error := some e }) ∧
    (∀ r : GenAttempt, _llm_generate_sql (some ()) (Except.ok r) = r) ∧
    (∀ api, chat_completion false false api =
        { success := false, content := none, usage := none,
          error := some "OpenAI client not initialized".data }) ∧
    (∀ (init_ok : Bool) (e : ApiFailure),
      chat_completion true init_ok (Except.error e) =
        { success := false, content := none, usage := none,
          error := some (apiFailureMessage e) }) := by
  refine ⟨fun _ => rfl, fun _ => rfl, fun _ => rfl, fun _ => rfl, fun b e => ?_⟩
  simp [chat_completion]

/-- C5: for every table-list input and every SQL string, `validate_sql`
returns `is_valid = true`, returns `is_safe = true` exactly when `issues`
is empty, and `is_safe` does not depend on the table-list input (the only
input that can change `warnings`) nor on anything but `issues`. -/
theorem validate_sql_is_valid_and_safe_iff_issues_empty
    (tables tables' : Option (List Str)) (sql : Str) :
    (validate_sql tables sql).is_valid = true ∧
    ((validate_sql tables sql).is_safe = true ↔ (validate_sql tables sql).issues = []) ∧
    (validate_sql tables sql).is_safe = (validate_sql tables' sql).is_safe ∧
    (validate_sql tables sql).issues = (validate_sql tables' sql).issues ∧
    (validate_sql tables sql).risk_score = (validate_sql tables' sql).risk_score := by
  refine ⟨rfl, ?_, rfl, rfl, rfl⟩
  simp [validate_sql, List.length_eq_zero]

/-- C3: every SQL string whose trimmed uppercased form starts with SELECT,
contains no forbidden keyword as a substring, matches no system-table
pattern (case-insensitively), and has no `;` before the final character of
its trimmed form, validates as safe with an empty issues list, for every
table-list input (warnings do not matter). -/
theorem validate_sql_clean_select_safe (tables : Option (List Str)) (sql : Str)
    (hsel : ("SELECT".data).isPrefixOf (upper (strip sql)) = true)
    (hkw : ∀ kw ∈ FORBIDDEN_KEYWORDS, containsSub (upper (strip sql)) kw = false)
    (hsys : ∀ p ∈ SYSTEM_TABLE_PATTERNS, containsSub (lower sql) p = false)
    (hmulti : (strip sql).dropLast.contains ';' = false) :
    (validate_sql tables sql).is_safe = true ∧
    (validate_sql tables sql).issues = [] := by
  have hk : FORBIDDEN_KEYWORDS.filter (fun k => containsSub (upper (strip sql)) k) = [] :=
    List.filter_eq_nil_iff.mpr (fun k hk => by simp [hkw k hk])
  have hs : SYSTEM_TABLE_PATTERNS.filter (fun p => containsSub (lower sql) p) = [] :=
    List.filter_eq_nil_iff.mpr (fun p hp => by simp [hsys p hp])
  have hm : ';' ∉ (strip sql).dropLast := by simpa using hmulti
  constructor <;> simp [validate_sql, hsel, hk, hs, hm]

/-- C3 witness: `SELECT * FROM customers;` satisfies all four hypotheses
and validates safe with no issues. -/
theorem validate_sql_clean_select_safe_witness :
    (("SELECT".data).isPrefixOf (upper (strip "SELECT * FROM customers;".data)) = true ∧
     (∀ kw ∈ FORBIDDEN_KEYWORDS,
       containsSub (upper (strip "SELECT * FROM customers;".data)) kw = false) ∧
     (∀ p ∈ SYSTEM_TABLE_PATTERNS,
       containsSub (lower "SELECT * FROM customers;".data) p = false) ∧
     (strip "SELECT * FROM customers;".data).dropLast.contains ';' = false) ∧
    ((validate_sql (some ["customers".data]) "SELECT * FROM customers;".data).is_safe = true ∧
     (validate_sql (some ["customers".data]) "SELECT * FROM customers;".data).issues = []) :=
  ⟨⟨by decide, by decide, by decide, by decide⟩,
   validate_sql_clean_select_safe (some ["customers".data]) "SELECT * FROM customers;".data
     (by decide) (by decide) (by decide) (by decide)⟩

/-- C2: whenever a forbidden keyword occurs as a substring of the trimmed,
uppercased SQL text, `validate_sql` reports `is_safe = false`, the issues
list contains the entry `Forbidden keyword detected: <kw>` (in which the
keyword appears verbatim), and the risk score decomposes as 50 for the
SELECT-only rule plus 40 per firing forbidden keyword plus 30 for multiple
statements plus 40 per system-table pattern, so each keyword adds +40. -/
theorem validate_sql_forbidden_keywords (tables : Option (List Str)) (sql kw : Str)
    (hk : kw ∈ FORBIDDEN_KEYWORDS)
    (hin : containsSub (upper (strip sql)) kw = true) :
    (validate_sql tables sql).is_safe = false ∧
    ("Forbidden keyword detected: ".data ++ kw) ∈ (validate_sql tables sql).issues ∧
    (validate_sql tables sql).risk_score =
      (if ("SELECT".data).isPrefixOf (upper (strip sql)) then 0 else 50) +
      40 * (FORBIDDEN_KEYWORDS.filter
              (fun k => containsSub (upper (strip sql)) k)).length +
      (if (strip sql).dropLast.contains ';' then 30 else 0) +
      40 * (SYSTEM_TABLE_PATTERNS.filter (fun p => containsSub (lower sql) p)).length := by
  have hmemf : kw ∈ FORBIDDEN_KEYWORDS.filter
      (fun k => containsSub (upper (strip sql)) k) :=
    List.mem_filter.mpr ⟨hk, hin⟩
  have hmem : ("Forbidden keyword detected: ".data ++ kw) ∈
      (validate_sql tables sql).issues := by
    simp only [validate_sql]
    refine List.mem_append.mpr (Or.inl (List.mem_append.mpr (Or.inl
      (List.mem_append.mpr (Or.inr ?_)))))
    exact List.mem_map.mpr ⟨kw, hmemf, rfl⟩
  refine ⟨?_, hmem, rfl⟩
  have hne : (validate_sql tables sql).issues ≠ [] := List.ne_nil_of_mem hmem
  simp only [validate_sql] at hne ⊢
  simpa [List.length_eq_zero] using hne

/-- C2 witness: `DROP TABLE customers;` contains the forbidden keyword
DROP, and the theorem applies with both hypotheses discharged there. -/
theorem validate_sql_forbidden_keywords_witness :
    ("DROP".data ∈ FORBIDDEN_KEYWORDS ∧
     containsSub (upper (strip "DROP TABLE customers;".data)) "DROP".data = true) ∧
    ((validate_sql none "DROP TABLE customers;".data).is_safe = false ∧
     ("Forbidden keyword detected: ".data ++ "DROP".data) ∈
       (validate_sql none "DROP TABLE customers;".data).issues ∧
     (validate_sql none "DROP TABLE customers;".data).risk_score =
       (if ("SELECT".data).isPrefixOf (upper (strip "DROP TABLE customers;".data)) then 0
        else 50) +
       40 * (FORBIDDEN_KEYWORDS.filter
               (fun k => containsSub (upper (strip "DROP TABLE customers;".data)) k)).length +
       (if (strip "DROP TABLE customers;".data).dropLast.contains ';' then 30 else 0) +
       40 * (SYSTEM_TABLE_PATTERNS.filter
               (fun p => containsSub (lower "DROP TABLE customers;".data) p)).length) :=
  ⟨⟨by decide, by decide⟩,
   validate_sql_forbidden_keywords none "DROP TABLE customers;".data "DROP".data
     (by decide) (by decide)⟩

/-- C10: for every table-list input and SQL string, the risk score is zero
exactly when the query is safe, and the risk score equals the sum of the
weights of the issues that fired (50 SELECT-only, 40 per forbidden
keyword, 30 multiple statements, 40 per system-table hit) — so every rule
that appends an issue adds positive risk and no risk arises without an
issue. -/
theorem validate_sql_risk_score_iff_safe (tables : Option (List Str)) (sql : Str) :
    ((validate_sql tables sql).risk_score = 0 ↔
      (validate_sql tables sql).is_safe = true) ∧
    (validate_sql tables sql).risk_score =
      ((validate_sql tables sql).issues.map issueWeight).sum := by
  constructor
  · simp only [validate_sql]
    constructor
    · intro h
      simp only [Nat.add_eq_zero, Nat.mul_eq_zero, List.length_eq_zero] at h
      obtain ⟨⟨⟨h1, h2⟩, h3⟩, h4⟩ := h
      have e1 : ("SELECT".data).isPrefixOf (upper (strip sql)) = true := by
        by_contra hc
        simp [hc] at h1
      have e3 : ';' ∉ (strip sql).dropLast := by
        cases h : (strip sql).dropLast.contains ';' with
        | false => simpa using h
        | true => rw [h] at h3; simp at h3
      simp [e1, e3, h2.resolve_left (by omega), h4.resolve_left (by omega)]
    · intro h
      simp only [List.length_eq_zero, List.append_eq_nil, List.map_eq_nil_iff,
        beq_iff_eq] at h
      obtain ⟨⟨⟨h1, h2⟩, h3⟩, h4⟩ := h
      have e1 : ("SELECT".data).isPrefixOf (upper (strip sql)) = true := by
        by_contra hc
        simp [hc] at h1
      have e3 : ';' ∉ (strip sql).dropLast := by
        cases h : (strip sql).dropLast.contains ';' with
        | false => simpa using h
        | true => rw [h] at h3; simp at h3
      simp [e1, e3, h2, h4]
  · simp only [validate_sql, List.map_append, List.sum_append, List.map_map]
    have w1 : ∀ b : Bool,
        ((if b then ([] : List Str) else ["Only SELECT queries are allowed".data]).map
          issueWeight).sum = if b then 0 else 50 := by
      intro b
      cases b <;> simp [issueWeight]
    have w2 : ((FORBIDDEN_KEYWORDS.filter
          (fun k => containsSub (upper (strip sql)) k)).map
          (issueWeight ∘ fun k => "Forbidden keyword detected: ".data ++ k)).sum =
        40 * (FORBIDDEN_KEYWORDS.filter
          (fun k => containsSub (upper (strip sql)) k)).length := by
      rw [List.map_congr_left (g := fun _ => 40)]
      · rw [List.map_const', List.sum_replicate, smul_eq_mul, Nat.mul_comm]
      · intro k _
        simp only [Function.comp_apply, issueWeight]
        rw [if_pos (List.isPrefixOf_iff_prefix.mpr (List.prefix_append _ _))]
    have w3 : ∀ b : Bool,
        ((if b then ["Multiple SQL statements detected".data] else ([] : List Str)).map
          issueWeight).sum = if b then 30 else 0 := by
      intro b
      cases b <;> simp [issueWeight]
    have w4 : ((SYSTEM_TABLE_PATTERNS.filter (fun p => containsSub (lower sql) p)).map
          (issueWeight ∘ fun _ => "System table access detected".data)).sum =
        40 * (SYSTEM_TABLE_PATTERNS.filter (fun p => containsSub (lower sql) p)).length := by
      rw [List.map_congr_left (g := fun _ => 40)]
      · rw [List.map_const', List.sum_replicate, smul_eq_mul, Nat.mul_comm]
      · intro p _
        simp only [Function.comp_apply]
        decide
    rw [w1, w2, w3, w4]

/-- C1: whenever the chosen generation backend succeeds with a non-empty
SQL string, the orchestrator `generate_sql` returns top-level `success`
equal to `validation.is_safe`, still returning the SQL text and the full
validation result. -/
theorem generate_sql_success_eq_validation_is_safe
    (use_mock : Bool) (openai : Option Unit) (collab : Except Str GenAttempt)
    (tables : Option (List Str)) (question s : Str) (err : Option Str)
    (hai : (if use_mock then _mock_generate_sql question
            else _llm_generate_sql openai collab) =
           { success := true, sql := some s, error := err })
    (hs : s ≠ []) :
    generate_sql use_mock openai collab (Except.ok ()) tables question =
      { success := (validate_sql tables s).is_safe, sql := some s, error := none,
        validation := some (validate_sql tables s) } := by
  simp only [generate_sql, hai]
  simp [hs]

/-- C1 witness: a backend returning `DROP TABLE customers;` makes the
orchestrator return top-level success:false while the SQL text and the
validation result (issues "Only SELECT queries are allowed" and
"Forbidden keyword detected: DROP") are still returned. -/
theorem generate_sql_success_eq_validation_is_safe_witness :
    ((if (false : Bool) then _mock_generate_sql "q".data
      else _llm_generate_sql (some ())
        (Except.ok { success := true, sql := some "DROP TABLE customers;".data,
                     error := none })) =
      { success := true, sql := some "DROP TABLE customers;".data, error := none } ∧
     "DROP TABLE customers;".data ≠ []) ∧
    generate_sql false (some ())
      (Except.ok { success := true, sql := some "DROP TABLE customers;".data,
                   error := none })
      (Except.ok ()) none "q".data =
      { success := false, sql := some "DROP TABLE customers;".data, error := none,
        validation := some
          { is_safe := false, is_valid := true,
            issues := ["Only SELECT queries are allowed".data,
                       "Forbidden keyword detected: DROP".data],
            warnings := ["Table validation skipped".data],
            risk_score := 90 } } :=
  ⟨⟨by decide, by decide⟩,
   (generate_sql_success_eq_validation_is_safe false (some ())
      (Except.ok { success := true, sql := some "DROP TABLE customers;".data,
                   error := none })
      none "q".data "DROP TABLE customers;".data none (by decide) (by decide)).trans
    (by decide)⟩

/-- C6: the deterministic mock backend lower-cases the question and scans
the ordered rule list: the first rule all of whose keywords occur in the
lower-cased question wins, with fallback `SELECT 1;` when no rule matches;
the question "How many customers are there?" yields
`SELECT COUNT(*) FROM customers;`, which validates as safe. -/
theorem mock_generate_sql_first_match :
    (∀ (q : Str) (i : Nat) (pr : List Str × Str),
      mock_patterns.get? i = some pr →
      pr.1.all (fun w => containsSub (lower q) w) = true →
      (∀ j, j < i → ∀ pr', mock_patterns.get? j = some pr' →
        pr'.1.all (fun w => containsSub (lower q) w) = false) →
      _mock_generate_sql q = { success := true, sql := some pr.2, error := none }) ∧
    (∀ q : Str,
      (∀ pr ∈ mock_patterns, pr.1.all (fun w => containsSub (lower q) w) = false) →
      _mock_generate_sql q =
        { success := true, sql := some "SELECT 1;".data, error := none }) ∧
    _mock_generate_sql "How many customers are there?".data =
      { success := true, sql := some "SELECT COUNT(*) FROM customers;".data,
        error := none } ∧
    (validate_sql none "SELECT COUNT(*) FROM customers;".data).is_safe = true := by
  refine ⟨?_, ?_, by decide, by decide⟩
  · intro q i pr hget hall hmin
    simp only [_mock_generate_sql]
    rw [find?_eq_of_first _ mock_patterns i pr hget hall hmin]
  · intro q hnone
    simp only [_mock_generate_sql]
    rw [List.find?_eq_none.mpr (fun pr hpr => by simp [hnone pr hpr])]

/-- C6 witness: for "How many customers are there?" the first rule
(keywords "customer" and "how many") matches with no earlier rule, and the
theorem's first-match clause yields its template. -/
theorem mock_generate_sql_first_match_witness :
    (mock_patterns.get? 0 =
      some (["customer".data, "how many".data],
            "SELECT COUNT(*) FROM customers;".data) ∧
     (["customer".data, "how many".data].all
       (fun w => containsSub (lower "How many customers are there?".data) w)) = true) ∧
    _mock_generate_sql "How many customers are there?".data =
      { success := true, sql := some "SELECT COUNT(*) FROM customers;".data,
        error := none } :=
  ⟨⟨by decide, by decide⟩,
   mock_generate_sql_first_match.1 "How many customers are there?".data 0
     (["customer".data, "how many".data], "SELECT COUNT(*) FROM customers;".data)
     (by decide) (by decide)
     (fun j hj _ _ => absurd hj (Nat.not_lt_zero j))⟩

/-- C4 counterexample: on the raw response `SELECT 1; junk`, the source's
extraction `_extract_sql` returns the whole text, while the claimed
behaviour `extractSqlSpec` truncates at the first `;`, so the claim that
the extraction step truncates at the first `;` (i.e. agrees with
`extractSqlSpec` on every response) is false. -/
theorem extract_sql_truncation_counterexample :
    _extract_sql "SELECT 1; junk".data ≠ extractSqlSpec "SELECT 1; junk".data ∧
    _extract_sql "SELECT 1; junk".data = "SELECT 1; junk".data ∧
    extractSqlSpec "SELECT 1; junk".data = "SELECT 1;".data := by
  refine ⟨by decide, by decide, by decide⟩

/-- Helper: a string wrapped in non-whitespace backticks at both ends is
unchanged by `strip`. -/
theorem strip_wrap (x : Str) : strip (('`' :: x) ++ ['`']) = ('`' :: x) ++ ['`'] := by
  simp [strip, List.dropWhile_cons, isPySpace]

/-- Helper: the leading-fence step removes a ```` ```sql ```` fence from
any content that starts with one. -/
theorem dropLeadingFence_sql (b : Str) :
    dropLeadingFence ("```sql".data ++ b) = b := by
  unfold dropLeadingFence
  rw [if_pos (List.isPrefixOf_iff_prefix.mpr (List.prefix_append _ _))]
  rfl

/-- Helper: the leading-fence step removes a bare ```` ``` ```` fence from
any content that starts with one and does not continue with a `sql` tag. -/
theorem dropLeadingFence_plain (b : Str)
    (h : ("sql".data).isPrefixOf b = false) :
    dropLeadingFence ("```".data ++ b) = b := by
  unfold dropLeadingFence
  rw [if_neg (fun hc => by
    rcases List.isPrefixOf_iff_prefix.mp hc with ⟨t, ht⟩
    rw [show "```sql".data = "```".data ++ "sql".data from rfl,
      List.append_assoc] at ht
    have hb : ("sql".data).isPrefixOf b = true :=
      List.isPrefixOf_iff_prefix.mpr ⟨t, List.append_cancel_left ht⟩
    rw [h] at hb
    exact Bool.false_ne_true hb)]
  rw [if_pos (List.isPrefixOf_iff_prefix.mpr (List.prefix_append _ _))]
  rfl

/-- Helper: the trailing-fence step removes a trailing ```` ``` ```` fence
from any content. -/
theorem dropTrailingFence_append (b : Str) :
    dropTrailingFence (b ++ "```".data) = b := by
  unfold dropTrailingFence
  rw [if_pos (by
    show ("```".data).reverse.isPrefixOf (b ++ "```".data).reverse = true
    rw [List.reverse_append]
    exact List.isPrefixOf_iff_prefix.mpr (List.prefix_append _ _))]
  unfold dropRightL
  rw [List.length_append]
  simp [List.take_left]

/-- Helper: extraction from a ```` ```sql ```` fenced response yields the
trimmed body, whatever the body is. -/
theorem extract_sql_sql_fence (b : Str) :
    _extract_sql ("```sql".data ++ b ++ "```".data) = strip b := by
  have hshape : "```sql".data ++ b ++ "```".data =
      ('`' :: ("``sql".data ++ b ++ "``".data)) ++ ['`'] := by simp
  unfold _extract_sql
  rw [if_neg (by simp)]
  rw [hshape, strip_wrap, ← hshape, List.append_assoc, dropLeadingFence_sql,
    dropTrailingFence_append]

/-- Helper: extraction from a bare ```` ``` ```` fenced response yields the
trimmed body, whatever the body is, provided the fence carries no `sql`
language tag. -/
theorem extract_sql_plain_fence (b : Str)
    (h : ("sql".data).isPrefixOf (b ++ "```".data) = false) :
    _extract_sql ("```".data ++ b ++ "```".data) = strip b := by
  have hshape : "```".data ++ b ++ "```".data =
      ('`' :: ("``".data ++ b ++ "``".data)) ++ ['`'] := by simp
  unfold _extract_sql
  rw [if_neg (by simp)]
  rw [hshape, strip_wrap, ← hshape, List.append_assoc,
    dropLeadingFence_plain _ h, dropTrailingFence_append]

/-- C4 amended: `_extract_sql` strips a leading triple-backtick fence (with
or without a language tag) and a trailing triple-backtick fence and returns
the trimmed remaining text in full, with no truncation at `;`: for every
body, a ```` ```sql ````-fenced response yields the trimmed body; for every
body, a bare ```` ``` ````-fenced response yields the trimmed body; every
already-trimmed fence-free response is returned unchanged even when text
follows its first `;`; one-sided fences are stripped likewise (leading-only
and trailing-only instances); fenced bodies keep text after their first
`;`; and extracting from "```sql\nSELECT * FROM t;\n```" yields exactly
"SELECT * FROM t;". -/
theorem extract_sql_fence_strip :
    (∀ b : Str, _extract_sql ("```sql".data ++ b ++ "```".data) = strip b) ∧
    (∀ b : Str, ("sql".data).isPrefixOf (b ++ "```".data) = false →
      _extract_sql ("```".data ++ b ++ "```".data) = strip b) ∧
    (∀ s : Str, ("```sql".data).isPrefixOf (strip s) = false →
      ("```".data).isPrefixOf (strip s) = false →
      ("```".data).isSuffixOf (strip s) = false →
      strip s = s → _extract_sql s = s) ∧
    _extract_sql "```sql\nSELECT 1; junk\n```".data = "SELECT 1; junk".data ∧
    _extract_sql "```\nSELECT 2; tail\n```".data = "SELECT 2; tail".data ∧
    _extract_sql "```sql\nSELECT 3;".data = "SELECT 3;".data ∧
    _extract_sql "SELECT 4;\n```".data = "SELECT 4;".data ∧
    _extract_sql "```sql\nSELECT * FROM t;\n```".data = "SELECT * FROM t;".data := by
  refine ⟨extract_sql_sql_fence, extract_sql_plain_fence, ?_,
    by decide, by decide, by decide, by decide, by decide⟩
  intro s h0 h1 h2 ht
  rw [ht] at h0 h1 h2
  cases s with
  | nil => rfl
  | cons c t =>
      simp [_extract_sql, dropLeadingFence, dropTrailingFence, ht, h0, h1, h2]

/-- C4 amended witness: the tagless fence around `SELECT 2; tail` is
stripped to the trimmed body, and the fence-free, already-trimmed response
`SELECT 1; junk` is returned unchanged, keeping the text after its first
`;`. -/
theorem extract_sql_fence_strip_witness :
    (("sql".data).isPrefixOf ("\nSELECT 2; tail\n".data ++ "```".data) = false ∧
     ("```sql".data).isPrefixOf (strip "SELECT 1; junk".data) = false ∧
     ("```".data).isPrefixOf (strip "SELECT 1; junk".data) = false ∧
     ("```".data).isSuffixOf (strip "SELECT 1; junk".data) = false ∧
     strip "SELECT 1; junk".data = "SELECT 1; junk".data) ∧
    (_extract_sql ("```".data ++ "\nSELECT 2; tail\n".data ++ "```".data) =
       strip "\nSELECT 2; tail\n".data ∧
     _extract_sql "SELECT 1; junk".data = "SELECT 1; junk".data) :=
  ⟨⟨by decide, by decide, by decide, by decide, by decide⟩,
   ⟨extract_sql_fence_strip.2.1 "\nSELECT 2; tail\n".data (by decide),
    extract_sql_fence_strip.2.2.1 "SELECT 1; junk".data (by decide) (by decide)
      (by decide) (by decide)⟩⟩

/-- Helper: two key-sorted association lists that are permutations of each
other with duplicate-free keys are equal. -/
theorem pairs_eq_of_perm_of_sorted :
    ∀ (l₁ l₂ : SchemaMap), l₁.Perm l₂ → (l₁.map Prod.fst).Nodup →
    l₁.Pairwise itemLe → l₂.Pairwise itemLe → l₁ = l₂
  | [], l₂, hp, _, _, _ => hp.nil_eq
  | a :: t₁, [], hp, _, _, _ => by
      exact absurd hp.symm.nil_eq (by simp)
  | a :: t₁, b :: t₂, hp, hnd, hs₁, hs₂ => by
      have hab : a = b := by
        have ha : a ∈ b :: t₂ := hp.mem_iff.mp (List.mem_cons_self _ _)
        have hb : b ∈ a :: t₁ := hp.symm.mem_iff.mp (List.mem_cons_self _ _)
        rcases List.mem_cons.mp ha with h | ha'
        · exact h
        rcases List.mem_cons.mp hb with h | hb'
        · exact h.symm
        have h1 : a.1 ≤ b.1 := (List.pairwise_cons.mp hs₁).1 b hb'
        have h2 : b.1 ≤ a.1 := (List.pairwise_cons.mp hs₂).1 a ha'
        have hkey : a.1 = b.1 := le_antisymm h1 h2
        have hnotin : a.1 ∉ t₁.map Prod.fst := (List.nodup_cons.mp hnd).1
        exact absurd (hkey ▸ List.mem_map_of_mem Prod.fst hb') hnotin
      subst hab
      have htl : t₁.Perm t₂ := hp.cons_inv
      have := pairs_eq_of_perm_of_sorted t₁ t₂ htl (List.nodup_cons.mp hnd).2
        (List.pairwise_cons.mp hs₁).2 (List.pairwise_cons.mp hs₂).2
      rw [this]

/-- Helper: the key-sorted item list, hence the schema hash input, is
stable across the key ordering of the schema mapping. -/
theorem sortedItems_eq_of_perm (l₁ l₂ : SchemaMap) (hp : l₁.Perm l₂)
    (hnd : (l₁.map Prod.fst).Nodup) : sortedItems l₁ = sortedItems l₂ := by
  have hperm : (sortedItems l₁).Perm (sortedItems l₂) :=
    ((List.perm_insertionSort itemLe l₁).trans hp).trans
      (List.perm_insertionSort itemLe l₂).symm
  have hnd₁ : ((sortedItems l₁).map Prod.fst).Nodup :=
    (((List.perm_insertionSort itemLe l₁).map Prod.fst).symm).nodup hnd
  exact pairs_eq_of_perm_of_sorted _ _ hperm hnd₁
    (List.sorted_insertionSort itemLe l₁) (List.sorted_insertionSort itemLe l₂)

/-- C7: starting from a collection without the marker document, calling
`index_schema` with `force_reindex = false` twice over an unchanged schema
performs exactly one batch add: the first call succeeds and adds (batch
count 1), the second finds the hash-marker document, leaves the collection
unchanged, adds no documents, and returns a no-op success with message
"Schema already indexed"; moreover the content hash is stable across the
key ordering of the schema mapping. -/
theorem index_schema_idempotent (H : SchemaMap → Str) (schema : SchemaMap)
    (samples : Str → Option Str) (col₀ : Collection)
    (h : col₀.any (fun p => p.1 = hashMarkerId H schema) = false) :
    (index_schema H schema samples false col₀).2.2 = 1 ∧
    (index_schema H schema samples false col₀).1.success = true ∧
    (index_schema H schema samples false
      (index_schema H schema samples false col₀).2.1).2.2 = 0 ∧
    (index_schema H schema samples false
      (index_schema H schema samples false col₀).2.1).1 =
      { success := true, tables_indexed := 0, documents_added := 0,
        error := none, message := some "Schema already indexed".data } ∧
    (index_schema H schema samples false
      (index_schema H schema samples false col₀).2.1).2.1 =
      (index_schema H schema samples false col₀).2.1 ∧
    (∀ schema' : SchemaMap, schema.Perm schema' → (schema.map Prod.fst).Nodup →
      _compute_schema_hash H schema = _compute_schema_hash H schema') := by
  have hC : ¬((false = false) ∧
      col₀.any (fun p => p.1 = hashMarkerId H schema) = true) := by
    intro hc
    rw [h] at hc
    exact Bool.false_ne_true hc.2
  have hfirst : index_schema H schema samples false col₀ =
      ({ success := true, tables_indexed := schema.length,
         documents_added := (allSchemaDocs H schema samples).length,
         error := none, message := none },
       col₀ ++ allSchemaDocs H schema samples, 1) := by
    unfold index_schema
    rw [if_neg hC]
    rfl
  have hmarker : (hashMarkerId H schema,
      "Schema hash: ".data ++ _compute_schema_hash H schema) ∈
      col₀ ++ allSchemaDocs H schema samples :=
    List.mem_append_right _ (List.mem_append_left _
      (List.mem_append_right _ (List.mem_cons_self _ _)))
  have hmem : (col₀ ++ allSchemaDocs H schema samples).any
      (fun p => p.1 = hashMarkerId H schema) = true :=
    List.any_eq_true.mpr ⟨_, hmarker, by simp⟩
  have hsecond : index_schema H schema samples false
      (col₀ ++ allSchemaDocs H schema samples) =
      ({ success := true, tables_indexed := 0, documents_added := 0,
         error := none, message := some "Schema already indexed".data },
       col₀ ++ allSchemaDocs H schema samples, 0) := by
    unfold index_schema
    rw [if_pos ⟨rfl, hmem⟩]
  refine ⟨by rw [hfirst], by rw [hfirst], by rw [hfirst, hsecond],
    by rw [hfirst, hsecond], by rw [hfirst, hsecond], ?_⟩
  intro schema' hperm hnd
  simp only [_compute_schema_hash]
  rw [sortedItems_eq_of_perm schema schema' hperm hnd]

/-- C7 witness: with an empty collection, the one-table schema
`sampleSchema` and the concrete digest `hConst`, both calls behave as the
theorem states. -/
theorem index_schema_idempotent_witness :
    (([] : Collection).any
      (fun p => p.1 = hashMarkerId hConst sampleSchema) = false) ∧
    ((index_schema hConst sampleSchema (fun _ => none) false []).2.2 = 1 ∧
     (index_schema hConst sampleSchema (fun _ => none) false []).1.success = true ∧
     (index_schema hConst sampleSchema (fun _ => none) false
       (index_schema hConst sampleSchema (fun _ => none) false []).2.1).2.2 = 0 ∧
     (index_schema hConst sampleSchema (fun _ => none) false
       (index_schema hConst sampleSchema (fun _ => none) false []).2.1).1 =
       { success := true, tables_indexed := 0, documents_added := 0,
         error := none, message := some "Schema already indexed".data } ∧
     (index_schema hConst sampleSchema (fun _ => none) false
       (index_schema hConst sampleSchema (fun _ => none) false []).2.1).2.1 =
       (index_schema hConst sampleSchema (fun _ => none) false []).2.1 ∧
     (∀ schema' : SchemaMap, sampleSchema.Perm schema' →
       (sampleSchema.map Prod.fst).Nodup →
       _compute_schema_hash hConst sampleSchema =
       _compute_schema_hash hConst schema')) :=
  ⟨rfl, index_schema_idempotent hConst sampleSchema (fun _ => none) [] rfl⟩

/-- C8 counterexample: the claim that the matched tables are listed "in
the order first encountered among the retrieval matches" is false: the
source materialises the tables through `list(<python set>)`, whose
enumeration order is unspecified, and the admissible reverse-order
enumeration produces a different listing than the claimed first-encounter
order on two table matches (customers before orders). -/
theorem get_relevant_schema_order_counterexample :
    ¬ (∀ f : List Str → List Str, (∀ l, (f l).Perm (firstDedup l)) →
        get_relevant_schema f (Except.ok twoTableMatches) "FULL SCHEMA".data
          (fun _ => ⟨[]⟩) 5 =
        get_relevant_schema_claimed (Except.ok twoTableMatches) "FULL SCHEMA".data
          (fun _ => ⟨[]⟩) 5) := by
  intro hall
  have hrev := hall (fun l => (firstDedup l).reverse)
    (fun _ => List.reverse_perm _)
  revert hrev
  decide

/-- C8 amended: `get_relevant_schema` falls back to the full-schema prompt
string whenever retrieval fails or the retrieved table set is empty (in
particular on an empty match list, where `retrieve_context` also reports an
empty table list); otherwise it returns per-table column listings for at
most `max_tables` tables, drawn as some enumeration of the distinct
matched tables — the set-iteration order, which is a permutation of the
first-encountered order but not necessarily equal to it. -/
theorem get_relevant_schema_amended (f : List Str → List Str)
    (hf : ∀ l, (f l).Perm (firstDedup l)) :
    (∀ (e fsp : Str) (ts : Str → TableSchema) (k : Nat),
      get_relevant_schema f (Except.error e) fsp ts k = fsp) ∧
    (∀ (ms : List QueryMatch) (fsp : Str) (ts : Str → TableSchema) (k : Nat),
      tableAdds ms = [] → get_relevant_schema f (Except.ok ms) fsp ts k = fsp) ∧
    (∀ (fsp : Str) (ts : Str → TableSchema) (k : Nat),
      get_relevant_schema f (Except.ok []) fsp ts k = fsp ∧
      (retrieve_context f (Except.ok [])).tables = []) ∧
    (∀ (ms : List QueryMatch) (fsp : Str) (ts : Str → TableSchema) (k : Nat),
      k ≠ 0 → f (tableAdds ms) ≠ [] →
      get_relevant_schema f (Except.ok ms) fsp ts k =
        relevantSchemaListing ts ((f (tableAdds ms)).take k) ∧
      ((f (tableAdds ms)).take k).length ≤ k ∧
      (f (tableAdds ms)).Perm (firstDedup (tableAdds ms))) := by
  have h0 : f [] = [] := (hf []).eq_nil
  refine ⟨fun e fsp ts k => rfl, ?_, ?_, ?_⟩
  · intro ms fsp ts k hadds
    simp [get_relevant_schema, retrieve_context, hadds, h0]
  · intro fsp ts k
    constructor
    · simp [get_relevant_schema, retrieve_context, tableAdds, h0]
    · simp [retrieve_context, tableAdds, h0]
  · intro ms fsp ts k hk hne
    have htake : ((f (tableAdds ms)).take k).isEmpty = false := by
      rcases hE : f (tableAdds ms) with _ | ⟨b, t⟩
      · exact absurd hE hne
      · cases k with
        | zero => exact absurd rfl hk
        | succ n => simp [hE]
    refine ⟨?_, List.length_take_le k _, hf _⟩
    simp [get_relevant_schema, retrieve_context, htake]

/-- C8 amended witness: the identity enumeration `firstDedup` is an
admissible set order, and the theorem applies to it. -/
theorem get_relevant_schema_amended_witness :
    (∀ l, (firstDedup l).Perm (firstDedup l)) ∧
    ((∀ (e fsp : Str) (ts : Str → TableSchema) (k : Nat),
       get_relevant_schema firstDedup (Except.error e) fsp ts k = fsp) ∧
     (∀ (ms : List QueryMatch) (fsp : Str) (ts : Str → TableSchema) (k : Nat),
       tableAdds ms = [] →
       get_relevant_schema firstDedup (Except.ok ms) fsp ts k = fsp) ∧
     (∀ (fsp : Str) (ts : Str → TableSchema) (k : Nat),
       get_relevant_schema firstDedup (Except.ok []) fsp ts k = fsp ∧
       (retrieve_context firstDedup (Except.ok [])).tables = []) ∧
     (∀ (ms : List QueryMatch) (fsp : Str) (ts : Str → TableSchema) (k : Nat),
       k ≠ 0 → firstDedup (tableAdds ms) ≠ [] →
       get_relevant_schema firstDedup (Except.ok ms) fsp ts k =
         relevantSchemaListing ts ((firstDedup (tableAdds ms)).take k) ∧
       ((firstDedup (tableAdds ms)).take k).length ≤ k ∧
       (firstDedup (tableAdds ms)).Perm (firstDedup (tableAdds ms)))) :=
  ⟨fun _ => List.Perm.refl _,
   get_relevant_schema_amended firstDedup (fun _ => List.Perm.refl _)⟩

end Theorems

end NL2SQL
